import Mathlib

set_option maxRecDepth 100000

/-!
Verification development for `src/vin_decoder.py` (VIN decoder Flask backend).

Embedding conventions:
* Python strings are `List Char`, restricted to the ASCII behaviour of
  `str.strip`, `str.upper` and `str.isdigit` (all strings handled by the
  program are ASCII).
* Python's arbitrary-precision integers are `Int`/`Nat`.
* The floating-point depreciation formula `35000 * 0.85 ** age` is modelled
  in exact rational arithmetic via unnormalized integer fractions (`Frac`),
  with `0.85 = 17/20`, `0.8 = 4/5`, `1.2 = 6/5`; Python's `round`
  (banker's rounding, ties to even) is `pyRound`.
* The two outbound HTTP calls (NHTSA lookup, MarketCheck valuation) are
  oracles passed as arguments; the current year (`datetime.now().year`)
  is likewise a parameter.
* The history file is a `List Char` (its raw contents); `json.dump` /
  `json.load` are implemented concretely for the array-of-record shape the
  program reads and writes.
-/

/-- Characters removed by Python `str.strip()` (ASCII whitespace). -/
def isPySpace (c : Char) : Bool :=
  c == ' ' || c == '\t' || c == '\n' || c == '\r' || c == '\x0b' || c == '\x0c'

/-- Python `str.strip()`: drop leading and trailing whitespace. -/
def pyStrip (s : List Char) : List Char :=
  ((s.dropWhile isPySpace).reverse.dropWhile isPySpace).reverse

/-- Python `str.upper()` on a single character (ASCII table). -/
def pyCharUpper : Char → Char
  | 'a' => 'A' | 'b' => 'B' | 'c' => 'C' | 'd' => 'D' | 'e' => 'E'
  | 'f' => 'F' | 'g' => 'G' | 'h' => 'H' | 'i' => 'I' | 'j' => 'J'
  | 'k' => 'K' | 'l' => 'L' | 'm' => 'M' | 'n' => 'N' | 'o' => 'O'
  | 'p' => 'P' | 'q' => 'Q' | 'r' => 'R' | 's' => 'S' | 't' => 'T'
  | 'u' => 'U' | 'v' => 'V' | 'w' => 'W' | 'x' => 'X' | 'y' => 'Y'
  | 'z' => 'Z' | c => c

/-- Python `str.upper()`. -/
def pyUpper (s : List Char) : List Char :=
  s.map pyCharUpper

/-- Python `str.isdigit()`: nonempty and every character a decimal digit
(ASCII `0`-`9`). -/
def pyIsDigit (s : List Char) : Bool :=
  !s.isEmpty && s.all (fun c => decide ('0' ≤ c) && decide (c ≤ '9'))

/-- Python `int(s)` for a pure digit string. -/
def digitsToNat (s : List Char) : Nat :=
  s.foldl (fun a c => 10 * a + (c.toNat - 48)) 0

/-- Python `str(n)` for an integer. -/
def intStr (n : Int) : List Char :=
  (toString n).data

/-- The `vin_decoder.py` line-82 character class `[A-HJ-NPR-Z0-9]`:
ranges `A`-`H`, `J`-`N`, `P`, `R`-`Z`, `0`-`9`. -/
def isVinChar (c : Char) : Bool :=
  (decide ('A' ≤ c) && decide (c ≤ 'H')) ||
  (decide ('J' ≤ c) && decide (c ≤ 'N')) ||
  c == 'P' ||
  (decide ('R' ≤ c) && decide (c ≤ 'Z')) ||
  (decide ('0' ≤ c) && decide (c ≤ '9'))

/-- `re.match(r'^[A-HJ-NPR-Z0-9]{17}$', s)` viewed as a Bool.  Python's
un-flagged `$` matches at the very end of the string or just before a
single trailing newline, hence the second disjunct. -/
def reMatchVin (s : List Char) : Bool :=
  (s.length == 17 && s.all isVinChar) ||
  (s.length == 18 && (s.take 17).all isVinChar && s.getLast? == some '\n')

/-! ### Exact fraction arithmetic for the depreciation formula -/

/-- An exact, unnormalized rational number `num / den` (`den > 0` in every
use below).  Stands in for Python float arithmetic, taken exactly. -/
structure Frac where
  num : Int
  den : Int
deriving DecidableEq

/-- Fraction multiplication. -/
def fmul (a b : Frac) : Frac :=
  ⟨a.num * b.num, a.den * b.den⟩

/-- An integer as a fraction. -/
def ofIntF (n : Int) : Frac :=
  ⟨n, 1⟩

/-- Python `q ** age` for an integer exponent (negative exponents invert). -/
def fzpow (a : Frac) : Int → Frac
  | Int.ofNat n => ⟨a.num ^ n, a.den ^ n⟩
  | Int.negSucc n => ⟨a.den ^ (n + 1), a.num ^ (n + 1)⟩

/-- Python `round` on an exact fraction with positive denominator:
nearest integer, ties to even. -/
def pyRound (a : Frac) : Int :=
  let f := Int.fdiv a.num a.den
  let r2 := 2 * (a.num - f * a.den)
  if r2 < a.den then f
  else if r2 > a.den then f + 1
  else if f % 2 = 0 then f else f + 1

/-- The spec formula's literal `0.85` as an exact rational: the CLAIM-side
constant.  The program's `0.85` denotes the nearest IEEE double, `d085`
below. -/
def fracEightyFive : Frac := ⟨17, 20⟩

/-! The program computes the depreciation band in IEEE binary64 ("double")
arithmetic: every finite double is a rational number, and each operation
rounds its exact rational result to the nearest representable double
(round to nearest, ties to even, 53-bit significand).  `dblRound` performs
that rounding on exact fractions; it covers the normal range, which every
value arising in this development lies in (signed zeros, subnormals and
overflow are not modelled).  `float.__pow__` calls libm `pow`, modelled as
the correctly rounded double nearest the exact power — verified against
the platform's floats for every exponent this development touches. -/

/-- Whether `n / d ≥ 2 ^ k` for naturals `n`, `d` and an integer `k`. -/
def geShift (n d : Nat) (k : Int) : Bool :=
  match k with
  | Int.ofNat m => decide (2 ^ m * d ≤ n)
  | Int.negSucc m => decide (d ≤ 2 ^ (m + 1) * n)

/-- The binade exponent `e` with `2 ^ (e + 52) ≤ n / d < 2 ^ (e + 53)`,
found by unit steps from a start value (the fuel is ample: every value
rounded in this development lies within a few dozen binades of `2 ^ -1`).
-/
def findExp : Nat → Nat → Nat → Int → Int
  | 0, _, _, e => e
  | fuel + 1, n, d, e =>
    if geShift n d (e + 53) then findExp fuel n d (e + 1)
    else if !geShift n d (e + 52) then findExp fuel n d (e - 1)
    else e

/-- The exact rational value of the IEEE binary64 double nearest to the
positive fraction `a`: scale into the binade `[2^52, 2^53)`, round the
53-bit significand half-to-even, scale back. -/
def dblRound (a : Frac) : Frac :=
  if a.num ≤ 0 then a
  else
    let e := findExp 400 a.num.toNat a.den.toNat (-53)
    match e with
    | Int.ofNat k => ⟨pyRound ⟨a.num, a.den * 2 ^ k⟩ * 2 ^ k, 1⟩
    | Int.negSucc k => ⟨pyRound ⟨a.num * 2 ^ (k + 1), a.den⟩, 2 ^ (k + 1)⟩

/-- IEEE double multiplication: the correctly rounded exact product. -/
def mul64 (a b : Frac) : Frac :=
  dblRound (fmul a b)

/-- Python `x ** age` on floats: libm `pow`, modelled as the correctly
rounded double nearest the exact power of the double `x`. -/
def pow64 (x : Frac) (k : Int) : Frac :=
  dblRound (fzpow x k)

/-- The double denoted by the source literal `0.85` (line 176):
`7656119366529843 / 2^53 = 0.84999999999999997779...`. -/
def d085 : Frac := dblRound ⟨17, 20⟩

/-- The double denoted by the source literal `0.8` (line 177). -/
def d08 : Frac := dblRound ⟨4, 5⟩

/-- The double denoted by the source literal `1.2` (line 177). -/
def d12 : Frac := dblRound ⟨6, 5⟩

/-- Lines 174-177 as a function of `age = current_year - int(year)`:
`value = 35000 * (0.85 ** age)` (the int 35000 converts to a double
exactly; one rounding for the pow, one for the product), then
`round(value * 0.8), round(value * 1.2)` (one rounding per product,
`round` half-to-even on the exact double value). -/
def fallbackPair (age : Int) : Option Int × Option Int :=
  let value := mul64 (ofIntF 35000) (pow64 d085 age)
  (some (pyRound (mul64 value d08)), some (pyRound (mul64 value d12)))

/-- `estimate_price_range`'s fallback formula (lines 171-177): `None, None`
for a non-digit year, else the double-precision `0.8`/`1.2` band around
`35000 * 0.85 ** (current_year - int(year))`. -/
def fallbackRange (cy : Int) (year : List Char) : Option Int × Option Int :=
  if !pyIsDigit year then (none, none)
  else fallbackPair (cy - (digitsToNat year : Int))

/-- `estimate_price_range(make, model, year)` (lines 150-177).  `key` is
`os.environ.get('MARKETCHECK_KEY')`: Python's `if key:` treats both `None`
and an empty string as falsy, skipping the paid branch.  `paid` abstracts
the MarketCheck HTTP call: `some (lo, hi)` when the request succeeds, the
body is JSON and has a truthy `price_range` (whose `min`/`max` convert by
`int(...)`), `none` for every failure, which the `except: pass` turns into
fall-through. -/
def estimatePriceRange (key : Option (List Char)) (paid : Option (Int × Int))
    (cy : Int) (make model year : List Char) : Option Int × Option Int :=
  match key with
  | some k =>
    if k.isEmpty then fallbackRange cy year
    else
      match paid with
      | some (lo, hi) => (some lo, some hi)
      | none => fallbackRange cy year
  | none => fallbackRange cy year

/-! ### The decode pipeline after VIN extraction -/

/-- The first NHTSA result record `vin_data` (line 88): each field is
`some v` when the JSON object has that key (with string value `v`) and
`none` when the key is absent, so that `vin_data.get(k, d)` is `getD`. -/
structure LookupData where
  Make : Option (List Char)
  Model : Option (List Char)
  ModelYear : Option (List Char)
  DriveType : Option (List Char)
  DisplacementL : Option (List Char)
  EngineModel : Option (List Char)
  PlantCity : Option (List Char)
  PlantCountry : Option (List Char)
  VehicleType : Option (List Char)
  BodyClass : Option (List Char)
deriving DecidableEq

/-- A lookup record with every key absent. -/
def lkEmpty : LookupData :=
  ⟨none, none, none, none, none, none, none, none, none, none⟩

/-- A lookup record carrying only a `ModelYear` value. -/
def lkYear (y : List Char) : LookupData :=
  { lkEmpty with ModelYear := some y }

/-- Python `a or b` for an optional string `a` (`None` and `''` are falsy). -/
def pyOrStr (a : Option (List Char)) (b : List Char) : List Char :=
  match a with
  | some s => if s.isEmpty then b else s
  | none => b

/-- Insert thousands separators: Python's `f"{n:,}"` grouping, applied to a
reversed digit list. -/
def group3 : List Char → List Char
  | a :: b :: c :: d :: rest => a :: b :: c :: ',' :: group3 (d :: rest)
  | l => l

/-- Python `f"{n:,}"` for an integer. -/
def commaFmt (n : Int) : List Char :=
  let digits := Nat.toDigits 10 n.natAbs
  let grouped := (group3 digits.reverse).reverse
  if n < 0 then '-' :: grouped else grouped

/-- The `details` dictionary of `decode_vin` (lines 90-119): the values of
the response's ten named fields, in source order. -/
structure VehicleDetails where
  make : List Char
  model : List Char
  year : List Char
  driveType : List Char
  engineL : List Char
  manufacturedIn : List Char
  vehicleType : List Char
  bodyClass : List Char
  age : List Char
  estPrice : List Char
deriving DecidableEq

/-- Steps 2-4 of `decode_vin` (lines 90-119): field extraction from the
lookup record, age computation, price estimation and formatting. -/
def buildDetails (cy : Int) (key : Option (List Char))
    (paid : Option (Int × Int)) (lk : LookupData) : VehicleDetails :=
  let unknown := "Unknown".data
  let make := lk.Make.getD unknown
  let model := lk.Model.getD unknown
  let year := lk.ModelYear.getD unknown
  let driveType := lk.DriveType.getD unknown
  let engine := pyOrStr lk.DisplacementL (lk.EngineModel.getD unknown)
  let manufacturedIn := pyStrip ((lk.PlantCity.getD []) ++ ' ' :: (lk.PlantCountry.getD []))
  let vehicleType := lk.VehicleType.getD unknown
  let bodyClass := lk.BodyClass.getD unknown
  -- line 101: age_num = current_year - int(year) if year.isdigit() else None
  let ageNum : Option Int := if pyIsDigit year then some (cy - (digitsToNat year : Int)) else none
  -- line 102: age = f"{age_num} Years" if age_num else "Unknown"  (0 is falsy)
  let age := match ageNum with
    | some n => if n ≠ 0 then intStr n ++ " Years".data else unknown
    | none => unknown
  let pricePair := estimatePriceRange key paid cy make model year
  -- line 106: est_price = f"${price_low:,} - ${price_high:,}" if price_low else "N/A"
  -- (both components of the pair are always `some` together, see the two
  -- return sites of estimate_price_range; 0 is falsy)
  let estPrice := match pricePair with
    | (some lo, some hi) =>
      if lo ≠ 0 then '$' :: commaFmt lo ++ " - $".data ++ commaFmt hi else "N/A".data
    | _ => "N/A".data
  ⟨make, model, year, driveType,
   (if engine.isEmpty then unknown else engine),
   (if manufacturedIn.isEmpty then unknown else manufacturedIn),
   vehicleType, bodyClass, age, estPrice⟩

/-- Outcome of one `POST /api/decode-vin` request, starting from the text
returned by the vision model.  The three `Performed` flags record whether
the corresponding pipeline step (NHTSA lookup, price estimation, history
save) was reached. -/
structure PipelineResult where
  status : Nat
  success : Bool
  error : Option (List Char)
  vin : Option (List Char)
  details : Option VehicleDetails
  lookupPerformed : Bool
  priceEstimated : Bool
  historySaved : Bool
deriving DecidableEq

/-- `decode_vin` from line 80 on: `extracted` is the raw text of the vision
model's reply (`message.content[0].text`); it is stripped, uppercased and
validated (lines 80-83), and only on success do the lookup, price
estimation, response assembly and history save run (lines 86-124). -/
def decodeVin (cy : Int) (key : Option (List Char)) (paid : Option (Int × Int))
    (lk : LookupData) (extracted : List Char) : PipelineResult :=
  let vin := pyUpper (pyStrip extracted)
  if reMatchVin vin then
    let d := buildDetails cy key paid lk
    ⟨200, true, none, some vin, some d, true, true, true⟩
  else
    ⟨400, false, some ("Invalid VIN detected: ".data ++ vin), none, none, false, false, false⟩

/-! ### History store (`save_to_history`, lines 180-195)

The history file `db.json` is modelled by its raw contents (`List Char`,
`none` when the file does not exist).  `json.dump(..., indent=2)` and
`json.load` are implemented concretely for the data this program stores:
arrays of `{vin, timestamp, details}` objects whose fields are strings
(with `details` a string-to-string object).  `json.load` is modelled by
`loadHistory`, which accepts arbitrary whitespace between tokens and
requires the whole input to be consumed, exactly as `json.load` does; it
returns `none` where `json.load` raises. -/

/-- Fuel bound for the JSON reader: any bound no smaller than the input
length makes the fuelled recursions below equivalent to `json.load`'s
unbounded ones, and every file content in this development is far below
this constant. -/
def jsonFuel : Nat := 1000000

/-- Overwrite the beginning of `old` with `out`, keeping whatever of `old`
extends past `out` (i.e. `out ++ old.drop out.length`): the effect of
`f.seek(0)` followed by writing `out` with no `truncate()`. -/
def overwrite : List Char → List Char → List Char
  | [], old => old
  | c :: out, [] => c :: overwrite out []
  | c :: out, _ :: old => c :: overwrite out old

/-- A history record (line 182-186): the timestamp is
`datetime.now().isoformat()`, passed here as a parameter. -/
structure HistRecord where
  vin : List Char
  timestamp : List Char
  details : List (List Char × List Char)
deriving DecidableEq

/-- Lowercase hex digit, as Python's `json` module emits in `\u00XX`. -/
def hexDigitCh (n : Nat) : Char :=
  if n < 10 then Char.ofNat (48 + n) else Char.ofNat (87 + n)

/-- JSON string escaping as `json.dump` performs it (ASCII payloads). -/
def escChar (c : Char) : List Char :=
  if c = '"' then ['\\', '"']
  else if c = '\\' then ['\\', '\\']
  else if c = '\n' then ['\\', 'n']
  else if c = '\t' then ['\\', 't']
  else if c = '\r' then ['\\', 'r']
  else if c = '\x08' then ['\\', 'b']
  else if c = '\x0c' then ['\\', 'f']
  else if c.toNat < 32 then
    ['\\', 'u', '0', '0', hexDigitCh (c.toNat / 16), hexDigitCh (c.toNat % 16)]
  else [c]

/-- A JSON string literal. -/
def jstr (s : List Char) : List Char :=
  '"' :: (s.map escChar).flatten ++ ['"']

/-- `n` spaces of indentation. -/
def spacesN (n : Nat) : List Char :=
  List.replicate n ' '

/-- Interleave a separator between serialized items. -/
def joinSep (sep : List Char) : List (List Char) → List Char
  | [] => []
  | [x] => x
  | x :: y :: rest => x ++ sep ++ joinSep sep (y :: rest)

/-- `json.dump(d, f, indent=2)` for the `details` dict, whose keys sit at
indentation `ind + 2` and whose closing brace sits at `ind`. -/
def dumpDetails (ind : Nat) (d : List (List Char × List Char)) : List Char :=
  match d with
  | [] => "\x7b\x7d".data
  | _ =>
    "\x7b\n".data ++
    joinSep ",\n".data
      (d.map (fun kv => spacesN (ind + 2) ++ jstr kv.1 ++ ": ".data ++ jstr kv.2)) ++
    '\n' :: spacesN ind ++ "\x7d".data

/-- One record object as `json.dump(..., indent=2)` prints it, with its
opening brace indented by `ind`. -/
def dumpRecord (ind : Nat) (r : HistRecord) : List Char :=
  spacesN ind ++ "\x7b\n".data ++
  (spacesN (ind + 2) ++ jstr "vin".data ++ ": ".data ++ jstr r.vin) ++ ",\n".data ++
  (spacesN (ind + 2) ++ jstr "timestamp".data ++ ": ".data ++ jstr r.timestamp) ++ ",\n".data ++
  (spacesN (ind + 2) ++ jstr "details".data ++ ": ".data ++ dumpDetails (ind + 2) r.details) ++
  '\n' :: spacesN ind ++ "\x7d".data

/-- `json.dump(records, f, indent=2)`: the exact character stream written. -/
def dumpHistory (l : List HistRecord) : List Char :=
  match l with
  | [] => "[]".data
  | _ => '[' :: '\n' :: joinSep ",\n".data (l.map (dumpRecord 2)) ++ '\n' :: [']']

/-- JSON inter-token whitespace. -/
def isJsonWs (c : Char) : Bool :=
  c == ' ' || c == '\t' || c == '\n' || c == '\r'

/-- Skip inter-token whitespace. -/
def skipWs (cs : List Char) : List Char :=
  cs.dropWhile isJsonWs

/-- Consume one expected character. -/
def expectCh (c : Char) : List Char → Option (List Char)
  | x :: r => if x = c then some r else none
  | [] => none

/-- Hexadecimal digit value. -/
def hexVal (c : Char) : Option Nat :=
  let n := c.toNat
  if 48 ≤ n && n ≤ 57 then some (n - 48)
  else if 97 ≤ n && n ≤ 102 then some (n - 87)
  else if 65 ≤ n && n ≤ 70 then some (n - 55)
  else none

/-- Body of a JSON string after its opening quote; raw control characters
are rejected (`json.load` strict mode). -/
def parseStrBody : Nat → List Char → Option (List Char × List Char)
  | 0, _ => none
  | _, [] => none
  | fuel + 1, c :: cs =>
    if c = '"' then some ([], cs)
    else if c = '\\' then
      match cs with
      | [] => none
      | e :: cs' =>
        let dec? : Option (Char × List Char) :=
          if e = '"' then some ('"', cs')
          else if e = '\\' then some ('\\', cs')
          else if e = '/' then some ('/', cs')
          else if e = 'n' then some ('\n', cs')
          else if e = 't' then some ('\t', cs')
          else if e = 'r' then some ('\r', cs')
          else if e = 'b' then some ('\x08', cs')
          else if e = 'f' then some ('\x0c', cs')
          else if e = 'u' then
            match cs' with
            | h1 :: h2 :: h3 :: h4 :: cs'' =>
              match hexVal h1, hexVal h2, hexVal h3, hexVal h4 with
              | some a, some b, some c2, some d =>
                some (Char.ofNat (((a * 16 + b) * 16 + c2) * 16 + d), cs'')
              | _, _, _, _ => none
            | _ => none
          else none
        match dec? with
        | some (ch, rest) =>
          match parseStrBody fuel rest with
          | some (s, r2) => some (ch :: s, r2)
          | none => none
        | none => none
    else if c.toNat < 32 then none
    else
      match parseStrBody fuel cs with
      | some (s, r2) => some (c :: s, r2)
      | none => none

/-- A JSON string literal. -/
def parseJStr (fuel : Nat) (cs : List Char) : Option (List Char × List Char) :=
  match cs with
  | '"' :: rest => parseStrBody fuel rest
  | _ => none

/-- The nonempty field sequence of a string-to-string JSON object,
terminated by the closing brace. -/
def parseFieldSeq : Nat → List Char → Option (List (List Char × List Char) × List Char)
  | 0, _ => none
  | fuel + 1, cs => do
    let (k, r1) ← parseJStr fuel cs
    let r2 ← expectCh ':' (skipWs r1)
    let (v, r3) ← parseJStr fuel (skipWs r2)
    match skipWs r3 with
    | ',' :: r4 =>
      let (kvs, r5) ← parseFieldSeq fuel (skipWs r4)
      return ((k, v) :: kvs, r5)
    | '\x7d' :: r4 => return ([(k, v)], r4)
    | _ => none

/-- A string-to-string JSON object (the `details` value). -/
def parseDetails (fuel : Nat) (cs : List Char) : Option (List (List Char × List Char) × List Char) :=
  match skipWs cs with
  | '\x7b' :: rest =>
    match skipWs rest with
    | '\x7d' :: r => some ([], r)
    | _ => parseFieldSeq fuel (skipWs rest)
  | _ => none

/-- One `"key": "value"` member with a fixed expected key. -/
def parseKeyStr (fuel : Nat) (key : List Char) (cs : List Char) :
    Option (List Char × List Char) := do
  let (k, r1) ← parseJStr fuel cs
  if k = key then
    let r2 ← expectCh ':' (skipWs r1)
    parseJStr fuel (skipWs r2)
  else none

/-- One `{vin, timestamp, details}` object, the shape every record written
by this program has. -/
def parseRecord (fuel : Nat) (cs : List Char) : Option (HistRecord × List Char) := do
  let r0 ← expectCh '\x7b' (skipWs cs)
  let (vinv, r3) ← parseKeyStr fuel "vin".data (skipWs r0)
  let r4 ← expectCh ',' (skipWs r3)
  let (tsv, r7) ← parseKeyStr fuel "timestamp".data (skipWs r4)
  let r8 ← expectCh ',' (skipWs r7)
  let (k3, r9) ← parseJStr fuel (skipWs r8)
  if k3 = "details".data then
    let r10 ← expectCh ':' (skipWs r9)
    let (dv, r11) ← parseDetails fuel r10
    let r12 ← expectCh '\x7d' (skipWs r11)
    return (⟨vinv, tsv, dv⟩, r12)
  else none

/-- The nonempty record sequence of the history array, terminated by the
closing bracket. -/
def parseRecSeq : Nat → List Char → Option (List HistRecord × List Char)
  | 0, _ => none
  | fuel + 1, cs => do
    let (r, r1) ← parseRecord fuel cs
    match skipWs r1 with
    | ',' :: r2 =>
      let (rs, r3) ← parseRecSeq fuel r2
      return (r :: rs, r3)
    | ']' :: r2 => return ([r], r2)
    | _ => none

/-- The top-level history array. -/
def parseHistArr (fuel : Nat) (cs : List Char) : Option (List HistRecord × List Char) :=
  match skipWs cs with
  | '[' :: r0 =>
    let r1 := skipWs r0
    match r1 with
    | ']' :: r2 => some ([], r2)
    | _ => parseRecSeq fuel r1
  | _ => none

/-- `json.load(f)` on the file contents: parse one value and require that
only whitespace follows (otherwise `json.load` raises `Extra data`).
`none` models an exception. -/
def loadHistory (cs : List Char) : Option (List HistRecord) :=
  match parseHistArr jsonFuel cs with
  | some (d, rest) => if (skipWs rest).isEmpty then some d else none
  | none => none

/-- `save_to_history(vin, details)` acting on the file state (lines
187-195).  The branch for an existing file opens with mode `'r+'`, seeks
to offset 0 after reading and writes `json.dump(data[:50], f)` WITHOUT
truncating, so any bytes of the old contents beyond the newly written
stream survive: the new contents are `out ++ old.drop out.length`.  When
`json.load` raises, the exception propagates before anything is written
and the file is left unchanged. -/
def saveToHistory (r : HistRecord) (file : Option (List Char)) : Option (List Char) :=
  match file with
  | none => some (dumpHistory [r])
  | some old =>
    match loadHistory old with
    | none => some old
    | some data =>
      let out := dumpHistory ((r :: data).take 50)
      some (overwrite out old)

/-- A sequence of `save_to_history` calls, earliest first. -/
def runSaves (rs : List HistRecord) (file : Option (List Char)) : Option (List Char) :=
  rs.foldl (fun f r => saveToHistory r f) file

/-- A record of typical shape (concrete timestamp, `details` content is
irrelevant to the history claims). -/
def histSmallRec : HistRecord :=
  ⟨"1HGCM82633A004352".data, "2026-10-12T09:15:00.000001".data, []⟩

/-- A record whose serialization is longer than `histSmallRec`'s. -/
def histBigRec : HistRecord :=
  ⟨"WAUZZZF49HA036784".data, "2026-10-11T08:00:00.000001".data,
   [("Model".data, "QUATTROPORTE GRANSPORT".data)]⟩

/-- Fifty stored records, oldest (`histBigRec`) last, as the file holds
them after 50 sequential saves. -/
def fiftyStored : List HistRecord :=
  List.replicate 49 histSmallRec ++ [histBigRec]

/-! ### Helper lemmas -/

lemma head?_dropWhile_not (p : Char → Bool) (l : List Char) (a : Char)
    (h : (l.dropWhile p).head? = some a) : p a = false := by
  induction l with
  | nil => simp [List.dropWhile] at h
  | cons x xs ih =>
    rw [List.dropWhile_cons] at h
    by_cases hx : p x
    · rw [if_pos hx] at h
      exact ih h
    · rw [if_neg hx] at h
      simp only [List.head?_cons, Option.some.injEq] at h
      subst h
      simpa using hx

lemma pyStrip_getLast_not_space (l : List Char) (c : Char)
    (h : (pyStrip l).getLast? = some c) : isPySpace c = false := by
  unfold pyStrip at h
  rw [List.getLast?_reverse] at h
  exact head?_dropWhile_not _ _ _ h

lemma pyCharUpper_eq_newline {c : Char} (h : pyCharUpper c = '\n') : c = '\n' := by
  unfold pyCharUpper at h
  split at h
  all_goals first
  | exact absurd h (by decide)
  | exact h

lemma charToNat_inj {a b : Char} (h : a.toNat = b.toNat) : a = b :=
  Char.eq_of_val_eq (UInt32.eq_of_toBitVec_eq (BitVec.eq_of_toNat_eq h))

/-- The default string "Unknown" is not a digit string. -/
lemma pyIsDigit_unknown_false : pyIsDigit ['U', 'n', 'k', 'n', 'o', 'w', 'n'] = false := by
  decide

/-- On every age from 0 to 79 the program's double-precision band agrees
with the spec formula's exact-arithmetic band, except at age 3: there the
exact low product is the tie 17195.5 (rounding to 17196), while the float
product falls just below it and rounds to 17195. -/
lemma fallbackPair_vs_exact_below80 : ∀ n : Nat, n < 80 →
    fallbackPair (n : Int) =
      (if (n : Int) = 3 then ((some 17195 : Option Int), (some 25793 : Option Int))
       else
        (some (pyRound (fmul (fmul ⟨4, 5⟩ (ofIntF 35000)) (fzpow fracEightyFive (n : Int)))),
         some (pyRound (fmul (fmul ⟨6, 5⟩ (ofIntF 35000)) (fzpow fracEightyFive (n : Int)))))) := by
  decide

/-- The regex character class `[A-HJ-NPR-Z0-9]` is exactly "digit, or
uppercase letter other than I, O, Q". -/
lemma isVinChar_iff (c : Char) :
    isVinChar c = true ↔
      (('0' ≤ c ∧ c ≤ '9') ∨ ('A' ≤ c ∧ c ≤ 'Z' ∧ c ≠ 'I' ∧ c ≠ 'O' ∧ c ≠ 'Q')) := by
  simp only [isVinChar, Bool.or_eq_true, Bool.and_eq_true, decide_eq_true_eq, beq_iff_eq]
  constructor
  · rintro ((((⟨h1, h2⟩ | ⟨h1, h2⟩) | h) | ⟨h1, h2⟩) | ⟨h1, h2⟩)
    · refine Or.inr ⟨h1, le_trans h2 (by decide), ?_, ?_, ?_⟩ <;>
        (intro he; subst he; revert h2; decide)
    · refine Or.inr ⟨le_trans (by decide) h1, le_trans h2 (by decide), ?_, ?_, ?_⟩ <;>
        first
        | (intro he; subst he; revert h2; decide)
        | (intro he; subst he; revert h1; decide)
    · subst h
      exact Or.inr ⟨by decide, by decide, by decide, by decide, by decide⟩
    · refine Or.inr ⟨le_trans (by decide) h1, h2, ?_, ?_, ?_⟩ <;>
        (intro he; subst he; revert h1; decide)
    · exact Or.inl ⟨h1, h2⟩
  · rintro (⟨h1, h2⟩ | ⟨h1, h2, hI, hO, hQ⟩)
    · exact Or.inr ⟨h1, h2⟩
    · have h1' : 65 ≤ c.toNat := h1
      have h2' : c.toNat ≤ 90 := h2
      have hI' : c.toNat ≠ 73 := fun h => hI (charToNat_inj h)
      have hO' : c.toNat ≠ 79 := fun h => hO (charToNat_inj h)
      have hQ' : c.toNat ≠ 81 := fun h => hQ (charToNat_inj h)
      by_cases hP : c.toNat = 80
      · exact Or.inl (Or.inl (Or.inr (charToNat_inj hP)))
      · have hcover : (65 ≤ c.toNat ∧ c.toNat ≤ 72) ∨ (74 ≤ c.toNat ∧ c.toNat ≤ 78) ∨
            (82 ≤ c.toNat ∧ c.toNat ≤ 90) := by omega
        rcases hcover with h | h | h
        · exact Or.inl (Or.inl (Or.inl (Or.inl ⟨h.1, h.2⟩)))
        · exact Or.inl (Or.inl (Or.inl (Or.inr ⟨h.1, h.2⟩)))
        · exact Or.inl (Or.inr ⟨h.1, h.2⟩)

/-- The stripped-and-uppercased extraction never ends in a newline, so the
`$`-before-trailing-newline branch of `reMatchVin` cannot fire on it. -/
lemma stripUpper_getLast_ne_newline (e : List Char) :
    (pyUpper (pyStrip e)).getLast? ≠ some '\n' := by
  intro h
  rw [pyUpper, List.getLast?_map, Option.map_eq_some'] at h
  obtain ⟨c, hl, hc⟩ := h
  have hc2 := pyCharUpper_eq_newline hc
  subst hc2
  have := pyStrip_getLast_not_space e '\n' hl
  simp [isPySpace] at this

/-- The validator's acceptance on a stripped-and-uppercased string is
exactly "17 characters, all in the class". -/
lemma reMatchVin_stripUpper_iff (e : List Char) :
    reMatchVin (pyUpper (pyStrip e)) = true ↔
      ((pyUpper (pyStrip e)).length = 17 ∧
        ∀ c ∈ pyUpper (pyStrip e),
          (('0' ≤ c ∧ c ≤ '9') ∨ ('A' ≤ c ∧ c ≤ 'Z' ∧ c ≠ 'I' ∧ c ≠ 'O' ∧ c ≠ 'Q'))) := by
  unfold reMatchVin
  simp only [Bool.or_eq_true, Bool.and_eq_true, beq_iff_eq, List.all_eq_true]
  constructor
  · rintro (⟨h1, h2⟩ | ⟨⟨_, _⟩, h3⟩)
    · exact ⟨h1, fun c hc => (isVinChar_iff c).1 (h2 c hc)⟩
    · exact absurd h3 (stripUpper_getLast_ne_newline e)
  · intro ⟨h1, h2⟩
    exact Or.inl ⟨h1, fun c hc => (isVinChar_iff c).2 (h2 c hc)⟩

/-! ### Claims -/

/-- C1: the decode pipeline proceeds past validation (to the NHTSA lookup
and the rest of the pipeline) exactly when the stripped, uppercased
extraction has exactly 17 characters, each a digit or an uppercase letter
other than I, O, Q; every other string is rejected. -/
theorem c1_validator_charset (cy : Int) (key : Option (List Char))
    (paid : Option (Int × Int)) (lk : LookupData) (extracted : List Char) :
    (decodeVin cy key paid lk extracted).lookupPerformed = true ↔
      ((pyUpper (pyStrip extracted)).length = 17 ∧
        ∀ c ∈ pyUpper (pyStrip extracted),
          (('0' ≤ c ∧ c ≤ '9') ∨ ('A' ≤ c ∧ c ≤ 'Z' ∧ c ≠ 'I' ∧ c ≠ 'O' ∧ c ≠ 'Q'))) := by
  rw [← reMatchVin_stripUpper_iff]
  unfold decodeVin
  by_cases h : reMatchVin (pyUpper (pyStrip extracted)) = true <;> simp [h]

/-- C7: whenever the stripped, uppercased extraction fails validation, the
response is a 400 error whose text contains the offending string verbatim,
and neither the lookup nor the price estimation nor the history save runs. -/
theorem c7_invalid_vin_rejected (cy : Int) (key : Option (List Char))
    (paid : Option (Int × Int)) (lk : LookupData) (extracted : List Char)
    (h : reMatchVin (pyUpper (pyStrip extracted)) = false) :
    (decodeVin cy key paid lk extracted).status = 400 ∧
    (decodeVin cy key paid lk extracted).success = false ∧
    (∃ pre post, (decodeVin cy key paid lk extracted).error =
        some (pre ++ pyUpper (pyStrip extracted) ++ post)) ∧
    (decodeVin cy key paid lk extracted).lookupPerformed = false ∧
    (decodeVin cy key paid lk extracted).priceEstimated = false ∧
    (decodeVin cy key paid lk extracted).historySaved = false := by
  refine ⟨?_, ?_, ⟨"Invalid VIN detected: ".data, [], ?_⟩, ?_, ?_, ?_⟩ <;>
    simp [decodeVin, h]

/-- Witness for C7 at the spec's 10-character example. -/
theorem c7_invalid_vin_rejected_witness :
    reMatchVin (pyUpper (pyStrip "ABCDEFGH12".data)) = false ∧
    ((decodeVin 2026 none none lkEmpty "ABCDEFGH12".data).status = 400 ∧
     (decodeVin 2026 none none lkEmpty "ABCDEFGH12".data).success = false ∧
     (∃ pre post, (decodeVin 2026 none none lkEmpty "ABCDEFGH12".data).error =
         some (pre ++ pyUpper (pyStrip "ABCDEFGH12".data) ++ post)) ∧
     (decodeVin 2026 none none lkEmpty "ABCDEFGH12".data).lookupPerformed = false ∧
     (decodeVin 2026 none none lkEmpty "ABCDEFGH12".data).priceEstimated = false ∧
     (decodeVin 2026 none none lkEmpty "ABCDEFGH12".data).historySaved = false) :=
  ⟨by decide, c7_invalid_vin_rejected 2026 none none lkEmpty "ABCDEFGH12".data (by decide)⟩

/-- C2 fails on the code: for a digit model year equal to the current year
the age difference is 0, Python's falsy-zero test discards it, and the age
is reported "Unknown" instead of "0 Years". -/
theorem c2_age_counterexample :
    pyIsDigit "2026".data = true ∧
    (buildDetails 2026 none none (lkYear "2026".data)).age = "Unknown".data ∧
    (buildDetails 2026 none none (lkYear "2026".data)).age ≠
      intStr (2026 - (digitsToNat "2026".data : Int)) ++ " Years".data := by
  decide

/-- C2 as amended: a digit model year yields `"{age} Years"` only when the
difference `current_year - int(year)` is nonzero; a zero difference or a
non-digit year yields "Unknown". -/
theorem c2_amended_age_rule (cy : Int) (key : Option (List Char))
    (paid : Option (Int × Int)) (lk : LookupData) :
    (pyIsDigit (lk.ModelYear.getD "Unknown".data) = true →
       (cy - (digitsToNat (lk.ModelYear.getD "Unknown".data) : Int) ≠ 0 →
          (buildDetails cy key paid lk).age =
            intStr (cy - (digitsToNat (lk.ModelYear.getD "Unknown".data) : Int)) ++
              " Years".data) ∧
       (cy - (digitsToNat (lk.ModelYear.getD "Unknown".data) : Int) = 0 →
          (buildDetails cy key paid lk).age = "Unknown".data)) ∧
    (pyIsDigit (lk.ModelYear.getD "Unknown".data) = false →
       (buildDetails cy key paid lk).age = "Unknown".data) := by
  refine ⟨fun hd => ⟨fun hne => ?_, fun heq => ?_⟩, fun hd => ?_⟩
  · simp [buildDetails, hd, hne]
  · simp [buildDetails, hd, heq]
  · simp [buildDetails, hd]

/-- Witness for C2's amended rule at year 2020 with current year 2026. -/
theorem c2_amended_age_rule_witness :
    pyIsDigit ((lkYear "2020".data).ModelYear.getD "Unknown".data) = true ∧
    2026 - (digitsToNat ((lkYear "2020".data).ModelYear.getD "Unknown".data) : Int) ≠ 0 ∧
    (buildDetails 2026 none none (lkYear "2020".data)).age =
      intStr (2026 - (digitsToNat ((lkYear "2020".data).ModelYear.getD "Unknown".data) : Int)) ++
        " Years".data :=
  ⟨by decide, by decide,
   ((c2_amended_age_rule 2026 none none (lkYear "2020".data)).1 (by decide)).1 (by decide)⟩

/-- C3 fails on the code as stated: at model year "2023" against current
year 2026 (age 3) the program's double arithmetic gives the low bound
17195 — `35000 * 0.85**3 * 0.8 = 17195.499999999996...`, one float error
below the exact tie — while the claim's formula in exact arithmetic hits
17195.5 exactly and `round` (ties to even) gives 17196. -/
theorem c3_exact_formula_counterexample :
    pyIsDigit "2023".data = true ∧
    estimatePriceRange none none 2026 "HONDA".data "CIVIC".data "2023".data =
      (some 17195, some 25793) ∧
    pyRound (fmul (fmul ⟨4, 5⟩ (ofIntF 35000)) (fzpow fracEightyFive 3)) = 17196 ∧
    (some 17195 : Option Int) ≠ some 17196 := by
  decide

/-- C3 as amended: with no valuation key and a digit year whose age
`current_year - int(year)` lies in 0-79, the estimate equals
`(round(0.8 * 35000 * 0.85 ^ age), round(1.2 * 35000 * 0.85 ^ age))` of
the spec formula read in exact arithmetic, except at age 3, where the
float computation returns the low bound 17195 in place of the exact
formula's 17196. -/
theorem c3_amended_fallback_depreciation (cy : Int) (paid : Option (Int × Int))
    (make model year : List Char) (h : pyIsDigit year = true)
    (h0 : 0 ≤ cy - (digitsToNat year : Int))
    (h79 : cy - (digitsToNat year : Int) ≤ 79) :
    estimatePriceRange none paid cy make model year =
      (if cy - (digitsToNat year : Int) = 3
       then ((some 17195 : Option Int), (some 25793 : Option Int))
       else
        (some (pyRound (fmul (fmul ⟨4, 5⟩ (ofIntF 35000))
                  (fzpow fracEightyFive (cy - (digitsToNat year : Int))))),
         some (pyRound (fmul (fmul ⟨6, 5⟩ (ofIntF 35000))
                  (fzpow fracEightyFive (cy - (digitsToNat year : Int))))))) := by
  have hkey : estimatePriceRange none paid cy make model year
      = fallbackPair (cy - (digitsToNat year : Int)) := by
    simp [estimatePriceRange, fallbackRange, h]
  rw [hkey]
  obtain ⟨n, hn⟩ : ∃ n : Nat, (n : Int) = cy - (digitsToNat year : Int) :=
    ⟨(cy - (digitsToNat year : Int)).toNat, Int.toNat_of_nonneg h0⟩
  rw [← hn]
  exact fallbackPair_vs_exact_below80 n (by omega)

/-- Witness for C3's amended band at year "2020", current year 2026
(age 6, in range and away from the age-3 exception): 10560 to 15840,
which the float and exact computations agree on. -/
theorem c3_amended_fallback_depreciation_witness :
    pyIsDigit "2020".data = true ∧
    0 ≤ 2026 - (digitsToNat "2020".data : Int) ∧
    2026 - (digitsToNat "2020".data : Int) ≤ 79 ∧
    estimatePriceRange none none 2026 "HONDA".data "CIVIC".data "2020".data =
      (some 10560, some 15840) :=
  ⟨by decide, by decide, by decide,
   (c3_amended_fallback_depreciation 2026 none "HONDA".data "CIVIC".data "2020".data
      (by decide) (by decide) (by decide)).trans (by decide)⟩

/-- C4: a non-digit model year (with no valuation key) produces the
no-estimate pair, an "N/A" price field and an "Unknown" age field. -/
theorem c4_nonnumeric_year_na (cy : Int) (paid : Option (Int × Int))
    (make model year : List Char) (lk : LookupData) :
    (pyIsDigit year = false →
       estimatePriceRange none paid cy make model year = (none, none)) ∧
    (pyIsDigit (lk.ModelYear.getD "Unknown".data) = false →
       (buildDetails cy none paid lk).estPrice = "N/A".data ∧
       (buildDetails cy none paid lk).age = "Unknown".data) := by
  refine ⟨fun h => ?_, fun h => ⟨?_, ?_⟩⟩
  · simp [estimatePriceRange, fallbackRange, h]
  · simp [buildDetails, estimatePriceRange, fallbackRange, h]
  · simp [buildDetails, h]

/-- Witness for C4 at the year value "Unknown". -/
theorem c4_nonnumeric_year_na_witness :
    pyIsDigit "Unknown".data = false ∧
    estimatePriceRange none none 2026 "HONDA".data "CIVIC".data "Unknown".data =
      (none, none) ∧
    (buildDetails 2026 none none lkEmpty).estPrice = "N/A".data ∧
    (buildDetails 2026 none none lkEmpty).age = "Unknown".data :=
  ⟨by decide,
   (c4_nonnumeric_year_na 2026 none "HONDA".data "CIVIC".data "Unknown".data lkEmpty).1
     (by decide),
   ((c4_nonnumeric_year_na 2026 none "HONDA".data "CIVIC".data "Unknown".data lkEmpty).2
     (by decide)).1,
   ((c4_nonnumeric_year_na 2026 none "HONDA".data "CIVIC".data "Unknown".data lkEmpty).2
     (by decide)).2⟩

/-- C8 fails on the code as stated: with every upstream key absent, the
named field "Estimated Used Price" falls back to "N/A", not "Unknown". -/
theorem c8_estprice_counterexample :
    (buildDetails 2026 none none lkEmpty).estPrice = "N/A".data ∧
    (buildDetails 2026 none none lkEmpty).estPrice ≠ "Unknown".data := by
  decide

/-- C8 as amended: each upstream-backed named field falls back to "Unknown"
when its key is absent (Engine when both of its keys are absent), the
"Manufactured In" field is the plant city and country joined by one space
and trimmed with "Unknown" for the empty result, and the derived "Age" and
"Estimated Used Price" fields fall back to "Unknown" and "N/A". -/
theorem c8_amended_field_fallbacks (cy : Int) (paid : Option (Int × Int))
    (lk : LookupData) :
    (lk.Make = none → (buildDetails cy none paid lk).make = "Unknown".data) ∧
    (lk.Model = none → (buildDetails cy none paid lk).model = "Unknown".data) ∧
    (lk.ModelYear = none → (buildDetails cy none paid lk).year = "Unknown".data) ∧
    (lk.DriveType = none → (buildDetails cy none paid lk).driveType = "Unknown".data) ∧
    (lk.VehicleType = none → (buildDetails cy none paid lk).vehicleType = "Unknown".data) ∧
    (lk.BodyClass = none → (buildDetails cy none paid lk).bodyClass = "Unknown".data) ∧
    (lk.DisplacementL = none → lk.EngineModel = none →
       (buildDetails cy none paid lk).engineL = "Unknown".data) ∧
    ((buildDetails cy none paid lk).manufacturedIn =
       (if (pyStrip ((lk.PlantCity.getD []) ++ ' ' :: (lk.PlantCountry.getD []))).isEmpty
        then "Unknown".data
        else pyStrip ((lk.PlantCity.getD []) ++ ' ' :: (lk.PlantCountry.getD [])))) ∧
    (lk.ModelYear = none →
       (buildDetails cy none paid lk).age = "Unknown".data ∧
       (buildDetails cy none paid lk).estPrice = "N/A".data) := by
  refine ⟨fun h => ?_, fun h => ?_, fun h => ?_, fun h => ?_, fun h => ?_, fun h => ?_,
    fun h h2 => ?_, ?_, fun h => ⟨?_, ?_⟩⟩ <;>
    simp [buildDetails, estimatePriceRange, fallbackRange, pyOrStr,
      pyIsDigit_unknown_false, *]

/-- Witness for C8's amended fallbacks at the all-absent lookup record. -/
theorem c8_amended_field_fallbacks_witness :
    (buildDetails 2026 none none lkEmpty).make = "Unknown".data ∧
    (buildDetails 2026 none none lkEmpty).model = "Unknown".data ∧
    (buildDetails 2026 none none lkEmpty).year = "Unknown".data ∧
    (buildDetails 2026 none none lkEmpty).driveType = "Unknown".data ∧
    (buildDetails 2026 none none lkEmpty).vehicleType = "Unknown".data ∧
    (buildDetails 2026 none none lkEmpty).bodyClass = "Unknown".data ∧
    (buildDetails 2026 none none lkEmpty).engineL = "Unknown".data ∧
    (buildDetails 2026 none none lkEmpty).manufacturedIn =
      (if (pyStrip ((lkEmpty.PlantCity.getD []) ++ ' ' :: (lkEmpty.PlantCountry.getD []))).isEmpty
       then "Unknown".data
       else pyStrip ((lkEmpty.PlantCity.getD []) ++ ' ' :: (lkEmpty.PlantCountry.getD []))) ∧
    (buildDetails 2026 none none lkEmpty).age = "Unknown".data ∧
    (buildDetails 2026 none none lkEmpty).estPrice = "N/A".data :=
  ⟨(c8_amended_field_fallbacks 2026 none lkEmpty).1 rfl,
   (c8_amended_field_fallbacks 2026 none lkEmpty).2.1 rfl,
   (c8_amended_field_fallbacks 2026 none lkEmpty).2.2.1 rfl,
   (c8_amended_field_fallbacks 2026 none lkEmpty).2.2.2.1 rfl,
   (c8_amended_field_fallbacks 2026 none lkEmpty).2.2.2.2.1 rfl,
   (c8_amended_field_fallbacks 2026 none lkEmpty).2.2.2.2.2.1 rfl,
   (c8_amended_field_fallbacks 2026 none lkEmpty).2.2.2.2.2.2.1 rfl rfl,
   (c8_amended_field_fallbacks 2026 none lkEmpty).2.2.2.2.2.2.2.1,
   ((c8_amended_field_fallbacks 2026 none lkEmpty).2.2.2.2.2.2.2.2 rfl).1,
   ((c8_amended_field_fallbacks 2026 none lkEmpty).2.2.2.2.2.2.2.2 rfl).2⟩

/-- C9: with no valuation API key, the estimate is a function of the year
alone: the make and model arguments (and the would-be valuation response)
never influence the result. -/
theorem c9_no_key_noninterference (cy : Int) (paid₁ paid₂ : Option (Int × Int))
    (make₁ model₁ make₂ model₂ year : List Char) :
    estimatePriceRange none paid₁ cy make₁ model₁ year =
      estimatePriceRange none paid₂ cy make₂ model₂ year := rfl

/-- C10: for a sufficiently old numeric model year (here 1950 against
current year 2026) the fallback produces the numeric range `(0, 0)`, and
the falsy-zero formatting check reports "N/A" despite the numeric range. -/
theorem c10_zero_price_formats_na :
    pyIsDigit "1950".data = true ∧
    estimatePriceRange none none 2026 "FORD".data "SEDAN".data "1950".data =
      (some 0, some 0) ∧
    (buildDetails 2026 none none (lkYear "1950".data)).estPrice = "N/A".data := by
  decide

lemma saveToHistory_isSome (r : HistRecord) (f : Option (List Char)) :
    (saveToHistory r f).isSome = true := by
  cases f with
  | none => rfl
  | some old =>
    unfold saveToHistory
    cases hl : loadHistory old <;> simp [hl]

lemma runSaves_cons (r : HistRecord) (rs : List HistRecord) (f : Option (List Char)) :
    runSaves (r :: rs) f = runSaves rs (saveToHistory r f) := by
  rw [runSaves, runSaves, List.foldl_cons]

lemma saveToHistory_none (r : HistRecord) :
    saveToHistory r none = some (dumpHistory [r]) := rfl

lemma runSaves_some_isSome (rs : List HistRecord) (x : List Char) :
    (runSaves rs (some x)).isSome = true := by
  induction rs generalizing x with
  | nil => rfl
  | cons r rs ih =>
    rw [runSaves, List.foldl_cons]
    obtain ⟨y, hy⟩ := Option.isSome_iff_exists.mp (saveToHistory_isSome r (some x))
    rw [hy]
    simpa [runSaves] using ih y

/-- C5 (code bug): on the 51st sequential save — here from the store the
first 50 saves produce, whose oldest record serializes longer than the
newcomer — every save in the sequence yields a file (first conjunct) and
`data[:50]` is indeed the 50 most recent records newest first (second
conjunct), but `json.dump` writes a stream shorter than the existing
contents and, for want of `truncate()`, the old tail survives: the stored
file no longer parses (last conjunct), so the stored history is not
"exactly the 50 most recent records" (nor any record list at all). -/
theorem c5_sequential_saves_cap_violated :
    (runSaves (histBigRec :: List.replicate 50 histSmallRec) none).isSome = true ∧
    ((histSmallRec :: fiftyStored).take 50 =
       histSmallRec :: List.replicate 49 histSmallRec) ∧
    (saveToHistory histSmallRec (some (dumpHistory fiftyStored))).isSome = true ∧
    (saveToHistory histSmallRec (some (dumpHistory fiftyStored))).bind loadHistory
      = none := by
  refine ⟨?_, by decide, saveToHistory_isSome _ _, by decide⟩
  rw [runSaves_cons, saveToHistory_none]
  exact runSaves_some_isSome _ _

/-- C6 (code bug): a history file holding 50 records (the oldest serialized
longer than a typical record) parses as a record array, but one further
save rewrites it without truncation, and the resulting contents no longer
parse as JSON — the save is not a full rewrite of the file. -/
theorem c6_roundtrip_invariant_broken :
    loadHistory (dumpHistory fiftyStored) = some fiftyStored ∧
    (saveToHistory histSmallRec (some (dumpHistory fiftyStored))).isSome = true ∧
    (saveToHistory histSmallRec (some (dumpHistory fiftyStored))).bind loadHistory
      = none := by
  refine ⟨by decide, saveToHistory_isSome _ _, by decide⟩
